import Mathlib

/-!
Shallow embedding of the Bright Smile AI lead-engagement engine
(`app/services/engagement_engine.py`, `app/services/risk_analyzer.py`,
`app/services/asset_generator.py`, `app/core/utils.py`, `app/core/config.py`,
`app/db/models.py`) together with theorems settling the specification claims.

Modelling conventions:
* timestamps are rationals measured in hours; a Python `timedelta.days` of the
  difference `now - t` is `⌊(now - t) / 24⌋`, `total_seconds()/3600` is `now - t`;
* Python floats / `Decimal` are modelled as rationals (all constants involved
  are exact decimals);
* the external language model is an oracle supplied as an environment record;
  an oracle answer of `none` models an exception (network failure or a JSON
  parse failure) at that call site;
* SQLAlchemy rows become structures, the tables become lists, and an in-place
  mutation becomes a functional update of the corresponding structure.
-/

namespace BrightSmile

/-- Lead lifecycle states, from `LeadStatus` in `app/db/models.py`. -/
inductive LeadStatus where
  | new
  | active
  | at_risk
  | cold
  | contacted
  | human_handoff
  | converted
  | dnc_status
  deriving DecidableEq, Repr

/-- Risk levels, from `LeadRiskLevel` in `app/db/models.py`. -/
inductive LeadRiskLevel where
  | low
  | medium
  | high
  deriving DecidableEq, Repr

/-- Message sender kinds, from `SenderType` in `app/db/models.py`. -/
inductive SenderType where
  | lead
  | ai
  | human
  deriving DecidableEq, Repr

/-- The `value` string of a `LeadRiskLevel`, as used by the Python enum. -/
def LeadRiskLevel.value : LeadRiskLevel → String
  | .low => "low"
  | .medium => "medium"
  | .high => "high"

/-- Parsing a risk-level string, as `LeadRiskLevel(string)` does in Python;
`none` models the `ValueError` raised on an unknown string. -/
def riskLevelOfString (s : String) : Option LeadRiskLevel :=
  if s = "low" then some .low
  else if s = "medium" then some .medium
  else if s = "high" then some .high
  else none

/-- A lead row (the fields of `Lead` in `app/db/models.py` that the engine
reads or writes). Timestamps are rationals in hours; `last_contact_at` is
nullable exactly as in the schema. -/
structure Lead where
  id : Nat
  name : String
  initial_inquiry : Option String
  status : LeadStatus
  risk_level : LeadRiskLevel
  sentiment_score : ℚ
  reason_for_cold : Option String
  do_not_contact : Bool
  created_at : ℚ
  last_contact_at : Option ℚ
  deriving DecidableEq, Repr

/-- A message row (`Message` in `app/db/models.py`). -/
structure Message where
  lead_id : Nat
  sender : SenderType
  content : String
  created_at : ℚ
  intent_classification : Option String
  deriving DecidableEq, Repr

/-- An offer row (`Offer` in `app/db/models.py`), reduced to the fields the
engine reads. -/
structure Offer where
  offer_title : String
  description : String
  valid_for_service : String
  is_active : Bool
  deriving DecidableEq, Repr

/-- A testimonial row (`Testimonial` in `app/db/models.py`), reduced to the
fields the engine reads. -/
structure Testimonial where
  service_category : String
  snippet_text : String
  deriving DecidableEq, Repr

/-! ## Configuration constants (`app/core/config.py`, default values) -/

/-- Setting `cold_lead_cooldown_days` (default 14). -/
def cold_lead_cooldown_days : ℤ := 14

/-- Setting `gentle_nudge_days` (default 14). -/
def gentle_nudge_days : ℤ := 14

/-- Setting `social_proof_days` (default 30). -/
def social_proof_days : ℤ := 30

/-- Setting `default_procedure_cost` (default 2500.0). -/
def default_procedure_cost : ℚ := 2500

/-- Setting `default_insurance_coverage` (default 0.5). -/
def default_insurance_coverage : ℚ := 1/2

/-- The parsed `payment_plan_options` setting, default "12,24,36"
(`get_payment_plan_months` in `app/core/config.py`). -/
def payment_plan_months : List ℤ := [12, 24, 36]

/-! ## `app/core/utils.py` -/

/-- Python `int()` truncation of a rational toward zero (as applied to a
nonnegative float it is the floor). -/
def pyTrunc (q : ℚ) : ℤ := if 0 ≤ q then ⌊q⌋ else ⌈q⌉

/-- Python `round(x, 2)`: rounding to two decimal places. (Python rounds
half-to-even on binary floats; none of the values the claims touch are exact
halves at the third decimal, so the tie rule is immaterial here.) -/
def round2 (q : ℚ) : ℚ := (round (q * 100) : ℤ) / 100

/-- The function `determine_lead_risk_level` from `app/core/utils.py`:
accumulates risk points from sentiment, response gap and message count and
maps the total to a level string. -/
def determine_lead_risk_level (sentiment_score : ℚ) (response_gap_hours : ℤ)
    (message_count : ℤ) : String :=
  let risk_factors : ℤ := 0
  let risk_factors := risk_factors +
    (if sentiment_score < -(3/10) then 2 else if sentiment_score < 0 then 1 else 0)
  let risk_factors := risk_factors +
    (if response_gap_hours > 72 then 2 else if response_gap_hours > 24 then 1 else 0)
  let risk_factors := risk_factors + (if message_count < 3 then 1 else 0)
  if risk_factors ≥ 3 then "high"
  else if risk_factors ≥ 2 then "medium"
  else "low"

/-- The function `calculate_payment_plans` from `app/core/utils.py`: for each
positive plan length, the monthly amount is the total divided by the number of
months, rounded to two decimals.  The Python dict keyed by a label string is
modelled as an association list keyed by the month count. -/
def calculate_payment_plans (total_cost : ℚ) (plan_months : List ℤ) :
    List (ℤ × ℚ) :=
  plan_months.filterMap fun months =>
    if months > 0 then some (months, round2 (total_cost / (months : ℚ))) else none

/-! ## Intent classification (`_classify_intent` / `_route_by_intent`,
`app/services/engagement_engine.py` lines 140-176) -/

/-- The list `valid_intents` from `_classify_intent`.  Note that
`complaint_concern` is absent: the code coerces it like any unknown label. -/
def valid_intents : List String :=
  ["price_inquiry", "booking_request", "human_handoff", "general_question"]

/-- The five labels the classification prompt asks for (spec section 4.1). -/
def prompt_labels : List String :=
  ["price_inquiry", "booking_request", "human_handoff", "general_question",
   "complaint_concern"]

/-- Python `str.lower()` restricted to ASCII (the engine only compares ASCII
label and keyword text). -/
def pyLower (s : String) : String := ⟨s.data.map Char.toLower⟩

/-- Python `str.strip()`: leading and trailing whitespace removed. -/
def pyStrip (s : String) : String :=
  ⟨((s.data.dropWhile Char.isWhitespace).reverse.dropWhile Char.isWhitespace).reverse⟩

/-- The validation step of `_classify_intent`: the raw model output is
stripped and lowercased, and anything outside `valid_intents` becomes
`general_question`. -/
def classify_intent (raw : String) : String :=
  let intent := pyLower (pyStrip raw)
  if intent ∈ valid_intents then intent else "general_question"

/-- The router `_route_by_intent` returns the classified intent unchanged;
the LangGraph conditional edges then map each of the four valid labels to its
handler node. -/
def route_by_intent (classified_intent : String) : String := classified_intent

/-! ## Sentiment weighting inside `assess_lead_risk`
(`app/services/risk_analyzer.py` lines 576-592) -/

/-- Sum of a list of rationals. -/
def qsum (l : List ℚ) : ℚ := l.foldr (· + ·) 0

/-- Dot product of two rational lists (the generator expression
`sum(s * w for s, w in zip(sentiment_scores, weights))`). -/
def qdot : List ℚ → List ℚ → ℚ
  | s :: ss, w :: ws => s * w + qdot ss ws
  | _, _ => 0

/-- The weight list `[i + 1 for i in range(n)]`. -/
def sampleWeights (n : ℕ) : List ℚ := (List.range n).map fun i => (i + 1 : ℚ)

/-- The weighted sentiment computation of `assess_lead_risk`, applied to the
per-message sentiment scores **in the order the code iterates them**: the
message sample is queried `order_by(created_at.desc())`, so the head of
`scores` is the sentiment of the newest message. -/
def weightedSentiment (scores : List ℚ) : ℚ :=
  if scores.isEmpty then 0
  else qdot scores (sampleWeights scores.length) / qsum (sampleWeights scores.length)

/-- Modelled from the spec (section 4.2, step 1): the recency-weighted
average in which integer weights `1..N` are assigned from oldest to newest, so
on a newest-first sample the head carries weight `N` and the last element
carries weight `1`. -/
def specWeightedSentiment (scores : List ℚ) : ℚ :=
  if scores.isEmpty then 0
  else qdot scores (sampleWeights scores.length).reverse
    / qsum (sampleWeights scores.length)

/-- The per-message sentiment scores assembled by `assess_lead_risk` from a
newest-first message sample: messages with empty content are skipped
(`if msg.content:`), and `analyze_sentiment` (the external VADER analyzer) is
abstracted as the oracle `senti`. -/
def sampleScores (senti : String → ℚ) (recent : List Message) : List ℚ :=
  (recent.filter fun m => m.content ≠ "").map fun m => senti m.content

/-! ## Financial explainers (`app/services/asset_generator.py`) -/

/-- A financial-explainer row (`FinancialExplainer` in `app/db/models.py`),
reduced to the fields the generator writes and the access tracker mutates. -/
structure FinancialExplainer where
  lead_id : Nat
  secure_url_token : String
  is_accessed : Bool
  access_count : ℤ
  first_accessed_at : Option ℚ
  last_accessed_at : Option ℚ
  procedure_name : String
  total_cost : ℚ
  estimated_insurance : ℚ
  out_of_pocket_cost : ℚ
  payment_options : List (ℤ × ℚ)
  deriving DecidableEq, Repr

/-- Python `x or default` applied to an optional number: both `None` and `0.0`
are falsy and fall through to the default. -/
def orDefault (x : Option ℚ) (default : ℚ) : ℚ :=
  match x with
  | some v => if v = 0 then default else v
  | none => default

/-- The function `create_financial_explainer` from
`app/services/asset_generator.py` (lines 29-87): resolves the cost and the
coverage through Python `or`-defaults, computes the insurance contribution and
the out-of-pocket remainder, and builds the payment plans from the
out-of-pocket amount.  The freshly inserted row has the column defaults
`is_accessed = false`, `access_count = 0` and null access timestamps. -/
def create_financial_explainer (lead_id : Nat) (procedure_name : String)
    (estimated_cost : Option ℚ) (insurance_coverage_percent : Option ℚ)
    (secure_token : String) : FinancialExplainer :=
  let total_cost := orDefault estimated_cost default_procedure_cost
  let coverage_percent := orDefault insurance_coverage_percent default_insurance_coverage
  let estimated_insurance := total_cost * coverage_percent
  let out_of_pocket := total_cost - estimated_insurance
  let payment_options := calculate_payment_plans out_of_pocket payment_plan_months
  { lead_id := lead_id
    secure_url_token := secure_token
    is_accessed := false
    access_count := 0
    first_accessed_at := none
    last_accessed_at := none
    procedure_name := procedure_name
    total_cost := total_cost
    estimated_insurance := estimated_insurance
    out_of_pocket_cost := out_of_pocket
    payment_options := payment_options }

/-- The effective coverage used by `create_financial_explainer` for a given
argument (the Python `or`-default resolution). -/
def effectiveCoverage (insurance_coverage_percent : Option ℚ) : ℚ :=
  orDefault insurance_coverage_percent default_insurance_coverage

/-- The function `mark_explainer_accessed` from
`app/services/asset_generator.py` (lines 103-135): on the first access it
flips `is_accessed` and records `first_accessed_at`; every call increments
`access_count` and refreshes `last_accessed_at`. -/
def mark_explainer_accessed (now : ℚ) (e : FinancialExplainer) :
    FinancialExplainer :=
  let e := if e.is_accessed = false then
      { e with is_accessed := true, first_accessed_at := some now }
    else e
  { e with access_count := e.access_count + 1, last_accessed_at := some now }

/-- Repeated access calls at the given list of times, earliest first. -/
def mark_accessed_at_times (times : List ℚ) (e : FinancialExplainer) :
    FinancialExplainer :=
  times.foldl (fun acc t => mark_explainer_accessed t acc) e

/-! ## Service keyword extraction (`extract_service_keywords`,
`app/core/utils.py` lines 81-107) -/

/-- Substring containment on strings (Python `keyword in text_lower`). -/
def strContainsSub (hay needle : String) : Bool :=
  let h := hay.toList
  let n := needle.toList
  (List.range (h.length + 1)).any fun i => n.isPrefixOf (h.drop i)

/-- Case-insensitive containment, as SQL `ilike` with a `%keyword%` pattern. -/
def strContainsCI (hay needle : String) : Bool :=
  strContainsSub (pyLower hay) (pyLower needle)

/-- The keyword-to-category table of `extract_service_keywords` (Python dicts
iterate in insertion order, so the table is an ordered association list). -/
def service_keyword_table : List (String × List String) :=
  [("invisalign", ["invisalign", "aligners", "clear braces", "invisible braces"]),
   ("implants", ["implant", "implants", "tooth replacement", "missing tooth"]),
   ("whitening", ["whitening", "whiten", "bleaching", "yellow teeth", "stained"]),
   ("crown", ["crown", "crowns", "cap", "caps"]),
   ("veneer", ["veneer", "veneers", "porcelain"]),
   ("cleaning", ["cleaning", "hygiene", "checkup", "check-up"]),
   ("extraction", ["extraction", "remove", "pull", "wisdom tooth"]),
   ("root_canal", ["root canal", "endodontic", "infected tooth"]),
   ("braces", ["braces", "orthodontic", "straighten", "crooked teeth"]),
   ("gum_treatment", ["gum", "gums", "periodontal", "gingivitis"])]

/-- The function `extract_service_keywords`: every category whose keyword list
has a substring match against the lowercased text, in table order. -/
def extract_service_keywords (text : String) : List String :=
  let text_lower := pyLower text
  (service_keyword_table.filter fun p =>
    p.2.any fun kw => strContainsSub text_lower kw).map (·.1)

/-! ## Outreach strategy decisions
(`app/services/engagement_engine.py` lines 365-635) -/

/-- The structured decision parsed from the strategy model's JSON
(`_ai_qualify_and_strategize_lead`).  `should_contact` and `strategy` are
optional because the code probes them with `.get` / falsy checks; a missing
`should_contact` at the final branch raises a `KeyError` that the campaign
loop catches. -/
structure StrategyResult where
  should_contact : Option Bool
  reasoning : String
  strategy : Option String
  custom_message : Option String
  featured_offer : Option String
  featured_testimonial : Option String
  urgency_level : String
  next_best_action : String
  deriving DecidableEq, Repr

/-- The `days_cold` computation: `(now - lead.last_contact_at).days`, with the
literal `999` default when `last_contact_at` is null.  Python `timedelta.days`
floors toward minus infinity. -/
def days_cold_of (now : ℚ) (l : Lead) : ℤ :=
  match l.last_contact_at with
  | some t => ⌊(now - t) / 24⌋
  | none => 999

/-- The synthesized reasoning string of the cooldown override
(`engagement_engine.py` line 522). -/
def override_reasoning (days_cold : ℤ) : String :=
  "Fallback: Lead is " ++ toString days_cold ++ " days cold (>= "
    ++ toString cold_lead_cooldown_days ++ " threshold)"

/-- The default strategy expression of the cooldown override
(`engagement_engine.py` line 524). -/
def override_tier (days_cold : ℤ) : String :=
  if days_cold ≤ 30 then "gentle_nudge"
  else if days_cold ≤ 45 then "social_proof"
  else "incentive_offer"

/-- The cooldown override applied to a successfully parsed AI decision
(`engagement_engine.py` lines 519-524): if the AI did not say contact
(`.get("should_contact", False)` is falsy) and the lead is at least
`cold_lead_cooldown_days` cold, force `should_contact`, synthesize the
reasoning, and fill in a day-tier strategy when the AI strategy is falsy
(absent, null or empty). -/
def applyCooldownOverride (days_cold : ℤ) (r : StrategyResult) : StrategyResult :=
  if ¬ (r.should_contact.getD false) ∧ days_cold ≥ cold_lead_cooldown_days then
    let r := { r with should_contact := some true,
                      reasoning := override_reasoning days_cold }
    if r.strategy.getD "" = "" then { r with strategy := some (override_tier days_cold) }
    else r
  else r

/-- The function `_fallback_strategy_selection` (`engagement_engine.py`
lines 532-554): pure rule-based tiering by days-cold, with
`gentle_nudge_days + 16 = 30` and `social_proof_days + 15 = 45` as the
boundaries written in the code. -/
def fallback_strategy_selection (days_cold : ℤ) (relevant_offers : List Offer)
    (relevant_testimonials : List Testimonial) : StrategyResult :=
  let strategy :=
    if days_cold ≤ gentle_nudge_days + 16 then "gentle_nudge"
    else if days_cold ≤ social_proof_days + 15 then "social_proof"
    else "incentive_offer"
  { should_contact := some true
    reasoning := "Rule-based strategy selection: " ++ toString days_cold ++ " days cold"
    strategy := some strategy
    custom_message := none
    featured_offer := relevant_offers.head?.map (·.offer_title)
    featured_testimonial := relevant_testimonials.head?.map (·.snippet_text)
    urgency_level := if days_cold > 60 then "high" else "medium"
    next_best_action := "Execute " ++ strategy ++ " strategy" }

/-- The offer lookup of `_ai_qualify_and_strategize_lead` (lines 448-458) and
`_ai_analyze_lead_opportunity` (lines 145-158): active offers matching any
extracted keyword by `ilike`, else the first three active offers. -/
def campaignOffers (offers : List Offer) (service_keywords : List String) :
    List Offer :=
  let relevant := service_keywords.foldl
    (fun acc kw => acc ++ offers.filter fun o =>
      strContainsCI o.valid_for_service kw && o.is_active) []
  if relevant.isEmpty then (offers.filter (·.is_active)).take 3 else relevant

/-- The testimonial lookup of `_ai_qualify_and_strategize_lead`
(lines 460-473): the first testimonial matching each keyword, else up to two
with `service_category = "General"`. -/
def campaignTestimonials (testimonials : List Testimonial)
    (service_keywords : List String) : List Testimonial :=
  let relevant := service_keywords.foldl
    (fun acc kw => acc ++
      ((testimonials.filter fun t => strContainsCI t.service_category kw).head?.toList)) []
  if relevant.isEmpty then
    (testimonials.filter fun t => t.service_category = "General").take 2
  else relevant

/-- Environment of the proactive-outreach campaign: the external language
model and its failure modes, keyed by lead id.  `aiDecision = none` models an
exception in the strategy call or a JSON parse failure (the paths that reach
the `except` of `_ai_qualify_and_strategize_lead`); `executeOk = false` models
an exception inside `_execute_ai_outreach_strategy` (which that function
catches itself, returning `False`). -/
structure OutreachEnv where
  aiDecision : Nat → Option StrategyResult
  executeOk : Nat → Bool
  generatedMessage : Nat → String → String

/-- The function `_ai_qualify_and_strategize_lead` (`engagement_engine.py`
lines 428-530): days-cold context, offer/testimonial lookup, the AI decision
with the cooldown override on success, and the rule-based fallback when the
call or the parse fails.  Note there is no deterministic check of the lead's
message history or of the cooldown as a gate: qualification is the AI's
answer plus the one-directional override. -/
def ai_qualify_and_strategize_lead (env : OutreachEnv) (now : ℚ)
    (offers : List Offer) (testimonials : List Testimonial) (l : Lead) :
    StrategyResult :=
  let days_cold := days_cold_of now l
  let service_keywords := extract_service_keywords (l.initial_inquiry.getD "")
  let relevant_offers := campaignOffers offers service_keywords
  let relevant_testimonials := campaignTestimonials testimonials service_keywords
  match env.aiDecision l.id with
  | some strategy_result => applyCooldownOverride days_cold strategy_result
  | none => fallback_strategy_selection days_cold relevant_offers relevant_testimonials

/-- A row inserted into the `messages` table during a batch pass. -/
structure MsgInsert where
  lead_id : Nat
  sender : SenderType
  content : String
  intent_classification : Option String
  deriving DecidableEq, Repr

/-- The function `_execute_ai_outreach_strategy` (`engagement_engine.py`
lines 556-608): resolves the message content (the AI custom message when
`strategy = "custom"` and one is present, otherwise a model-generated message
for the strategy prompt), inserts the outreach message, stamps
`last_contact_at`, and returns whether it succeeded.  A missing `strategy` key
raises a `KeyError` that the function catches, returning failure with no
insert; `executeOk = false` models any other caught exception. -/
def execute_ai_outreach_strategy (env : OutreachEnv) (now : ℚ) (l : Lead)
    (r : StrategyResult) : Lead × List MsgInsert × Bool :=
  match r.strategy with
  | none => (l, [], false)
  | some strategy =>
    if env.executeOk l.id then
      let content :=
        if strategy = "custom" ∧ r.custom_message.getD "" ≠ "" then
          r.custom_message.getD ""
        else env.generatedMessage l.id strategy
      ({ l with last_contact_at := some now },
       [{ lead_id := l.id, sender := .ai, content := content,
          intent_classification := some "proactive_outreach" }], true)
    else (l, [], false)

/-- One iteration of the campaign loop in `run_proactive_outreach_campaign`
(lines 383-414): qualify and strategize, then execute when the final decision
says contact, setting the status to `CONTACTED` on success.  A decision with
no `should_contact` key raises a `KeyError` caught by the loop (lead skipped,
untouched). -/
def campaign_lead_step (env : OutreachEnv) (now : ℚ) (offers : List Offer)
    (testimonials : List Testimonial) (l : Lead) : Lead × List MsgInsert :=
  let q := ai_qualify_and_strategize_lead env now offers testimonials l
  match q.should_contact with
  | none => (l, [])
  | some false => (l, [])
  | some true =>
    let res := execute_ai_outreach_strategy env now l q
    if res.2.2 then ({ res.1 with status := .contacted }, res.2.1)
    else (res.1, res.2.1)

/-! ## Risk analysis (`app/services/risk_analyzer.py`) -/

/-- The transient risk assessment built by `assess_lead_risk`, reduced to the
fields the analysis pass reads back (`risk_level` and `sentiment_score`); the
remaining fields only feed prompt text for the external model. -/
structure RiskAssessment where
  risk_level : String
  sentiment_score : ℚ
  deriving DecidableEq, Repr

/-- The function `assess_lead_risk` (`risk_analyzer.py` lines 553-627) on the
lead's messages sorted newest-first: take the last 10, compute per-message
sentiments through the external analyzer `senti` (skipping empty contents),
aggregate them with `weightedSentiment`, measure the gap from the newest
message, and classify with `determine_lead_risk_level` (the gap is passed
through Python `int()`). -/
def assess_lead_risk (senti : String → ℚ) (now : ℚ)
    (messages_newest_first : List Message) : RiskAssessment :=
  let recent := messages_newest_first.take 10
  match recent.head? with
  | none => { risk_level := "low", sentiment_score := 0 }
  | some last_message =>
    let weighted := weightedSentiment (sampleScores senti recent)
    let hours_since_last_contact := now - last_message.created_at
    let total_messages := (messages_newest_first.length : ℤ)
    { risk_level := determine_lead_risk_level weighted
        (pyTrunc hours_since_last_contact) total_messages
      sentiment_score := weighted }

/-- The predicate `_should_move_to_cold` (`risk_analyzer.py` lines 752-784):
only `AT_RISK` leads, with `hours_at_risk` measured from `last_contact_at` to
now (infinity when null, which satisfies the 336-hour branch); demote when
high-risk for more than 168 hours, or more than 336 hours in any case. -/
def should_move_to_cold (now : ℚ) (l : Lead) : Bool :=
  if l.status ≠ LeadStatus.at_risk then false
  else
    match l.last_contact_at with
    | none => true
    | some t =>
      decide ((l.risk_level = LeadRiskLevel.high ∧ now - t > 168) ∨ now - t > 336)

/-- Environment of the risk-analysis pass: the per-lead assessment (a
deterministic function of the message store and the sentiment analyzer,
abstracted here as an oracle keyed by lead), whether the aggressive-retention
and predictive-intervention sends succeed (their internal model calls), the
generated message contents, and whether an engagement engine was injected. -/
structure RiskEnv where
  assessOf : Lead → RiskAssessment
  retentionOk : Nat → Bool
  retentionContent : Nat → String
  hasEngine : Bool
  interventionOk : Nat → Bool
  interventionContent : Nat → String

/-- The reason string written on automated demotion
(`risk_analyzer.py` line 437). -/
def cold_reason : String := "Automated: No response after risk intervention"

/-- The body of one iteration of `analyze_all_active_leads` (lines 374-442)
up to but excluding the move-to-cold check: risk-level update (with the
status bump to `AT_RISK` on a new high), the aggressive-retention offer and
predictive intervention for high-risk leads (each stamping `last_contact_at`
on success, per `_send_aggressive_retention_offer` line 532 and
`send_predictive_intervention` line 679), and the milder intervention for
`AT_RISK`+medium leads.  Returns `none` when `LeadRiskLevel(value)` raises on
an unknown level string, which the per-lead exception handler turns into a
skip. -/
def analyze_lead_pre (env : RiskEnv) (now : ℚ) (l : Lead) :
    Option (Lead × List MsgInsert) :=
  let a := env.assessOf l
  let updated : Option Lead :=
    if a.risk_level = l.risk_level.value then some l
    else
      match riskLevelOfString a.risk_level with
      | none => none
      | some new_risk =>
        let l := { l with risk_level := new_risk, sentiment_score := a.sentiment_score }
        if new_risk = LeadRiskLevel.high ∧ l.status ≠ LeadStatus.at_risk then
          some { l with status := LeadStatus.at_risk }
        else some l
  match updated with
  | none => none
  | some l =>
    if l.risk_level = LeadRiskLevel.high then
      let l := if l.status ≠ LeadStatus.at_risk then { l with status := LeadStatus.at_risk } else l
      let step1 : Lead × List MsgInsert :=
        if env.retentionOk l.id then
          ({ l with last_contact_at := some now },
           [{ lead_id := l.id, sender := .ai, content := env.retentionContent l.id,
              intent_classification := some "aggressive_retention" }])
        else (l, [])
      let step2 : Lead × List MsgInsert :=
        if env.hasEngine ∧ env.interventionOk step1.1.id then
          ({ step1.1 with last_contact_at := some now },
           [{ lead_id := step1.1.id, sender := .ai,
              content := env.interventionContent step1.1.id,
              intent_classification := some "predictive_intervention" }])
        else (step1.1, [])
      some (step2.1, step1.2 ++ step2.2)
    else if l.status = LeadStatus.at_risk ∧ l.risk_level = LeadRiskLevel.medium then
      if env.hasEngine ∧ env.interventionOk l.id then
        some ({ l with last_contact_at := some now },
          [{ lead_id := l.id, sender := .ai, content := env.interventionContent l.id,
             intent_classification := some "predictive_intervention" }])
      else some (l, [])
    else some (l, [])

/-- The move-to-cold check at the end of an iteration (lines 434-442),
applied to the state the iteration has reached. -/
def apply_cold_check (now : ℚ) (p : Lead × List MsgInsert) :
    Lead × List MsgInsert :=
  if should_move_to_cold now p.1 then
    ({ p.1 with status := LeadStatus.cold, reason_for_cold := some cold_reason }, p.2)
  else p

/-- One full iteration of `analyze_all_active_leads` for a single lead,
including the exception skip and the final move-to-cold check. -/
def analyze_lead_step (env : RiskEnv) (now : ℚ) (l : Lead) :
    Lead × List MsgInsert :=
  match analyze_lead_pre env now l with
  | none => (l, [])
  | some p => apply_cold_check now p

/-! ## Opportunity scanning (`scan_all_leads_for_opportunities`,
`risk_analyzer.py` lines 59-350) -/

/-- The AI opportunity assessment, reduced to the fields the scan loop
reads. -/
structure OppAssessment where
  should_engage : Bool
  strategy : String
  reasoning : String
  recommended_offer : Option String
  urgency_level : String
  deriving DecidableEq, Repr

/-- Outcome of `_ai_analyze_lead_opportunity` for one lead: a parsed
assessment, a parse success that lacks the keys the loop indexes (`KeyError`
caught by the loop, lead skipped), or a model/parse failure (rule-based
fallback inside the function). -/
inductive OppAIResult where
  | valid (a : OppAssessment)
  | malformed
  | failed

/-- Environment of the opportunity scan. -/
structure OppEnv where
  aiAssess : Nat → OppAIResult
  sendOk : Nat → Bool
  sendContent : Nat → String

/-- The function `_fallback_opportunity_analysis` (`risk_analyzer.py`
lines 229-285): rule tiers on status, risk level and days since creation. -/
def fallback_opportunity_analysis (now : ℚ) (relevant_offers : List Offer)
    (l : Lead) : OppAssessment :=
  let days_since_creation : ℤ := ⌊(now - l.created_at) / 24⌋
  let has_offers := ¬ relevant_offers.isEmpty
  if l.status = LeadStatus.new ∧ days_since_creation > 1 then
    { should_engage := true, strategy := "proactive_outreach"
      reasoning := "New lead hasn\x27t been engaged yet"
      recommended_offer := some (if has_offers then
          ((relevant_offers.head?.map (·.offer_title)).getD "") else "Welcome consultation")
      urgency_level := "medium" }
  else if l.status = LeadStatus.at_risk ∧ l.risk_level = LeadRiskLevel.high then
    { should_engage := true, strategy := "proactive_outreach"
      reasoning := "High-risk lead needs immediate attention"
      recommended_offer := some (if has_offers then "Special consultation discount" else "Urgent follow-up")
      urgency_level := "high" }
  else if l.status = LeadStatus.at_risk ∧ l.risk_level = LeadRiskLevel.medium then
    { should_engage := true, strategy := "proactive_outreach"
      reasoning := "Medium-risk lead needs attention"
      recommended_offer := some (if has_offers then "Follow-up consultation" else "Check-in message")
      urgency_level := "medium" }
  else if l.status = LeadStatus.active ∧ days_since_creation > 3 then
    { should_engage := true, strategy := "proactive_outreach"
      reasoning := "Active lead may need follow-up"
      recommended_offer := some (if has_offers then "Progress check-in" else "General follow-up")
      urgency_level := "low" }
  else
    { should_engage := false, strategy := "none"
      reasoning := "No immediate opportunity identified"
      recommended_offer := none
      urgency_level := "low" }

/-- The escalation reason written by the scan loop
(`risk_analyzer.py` line 96). -/
def escalation_reason : String :=
  "AI identified high-value opportunity requiring human attention"

/-- One iteration of the scan loop in `scan_all_leads_for_opportunities`
(lines 80-112): AI assessment (with the rule-based fallback on failure and a
skip on malformed output), then either a proactive message (stamping
`last_contact_at` on success, per `_send_proactive_engagement` line 331) or an
escalation to human handoff. -/
def scan_lead_step (env : OppEnv) (now : ℚ) (offers : List Offer) (l : Lead) :
    Lead × List MsgInsert :=
  let service_keywords := extract_service_keywords (l.initial_inquiry.getD "")
  let relevant_offers := campaignOffers offers service_keywords
  let assessment : Option OppAssessment :=
    match env.aiAssess l.id with
    | .valid a => some a
    | .malformed => none
    | .failed => some (fallback_opportunity_analysis now relevant_offers l)
  match assessment with
  | none => (l, [])
  | some a =>
    if a.should_engage then
      if a.strategy = "proactive_outreach" then
        if env.sendOk l.id then
          ({ l with last_contact_at := some now },
           [{ lead_id := l.id, sender := .ai, content := env.sendContent l.id,
              intent_classification := some "proactive_engagement" }])
        else (l, [])
      else if a.strategy = "escalate_to_human" then
        ({ l with status := LeadStatus.human_handoff
                  reason_for_cold := some escalation_reason }, [])
      else (l, [])
    else (l, [])

/-! ## Batch passes

Each batch job queries a lead subset (always filtered on
`do_not_contact == False`) and iterates its per-lead body over the result.
Each iteration reads and mutates only its own lead, so the batch is the
pointwise application of the step to the selected leads, together with the
concatenation of all inserted messages. -/

/-- A database snapshot: the lead table plus the read-only catalogs the
passes consult. -/
structure DB where
  leads : List Lead
  messages : List Message
  offers : List Offer
  testimonials : List Testimonial

/-- The selection filter of `run_proactive_outreach_campaign` (lines
371-374): `status == COLD and do_not_contact == False`. -/
def coldSelect (l : Lead) : Bool :=
  l.status = LeadStatus.cold && l.do_not_contact = false

/-- The selection filter of `analyze_all_active_leads` (lines 361-364):
`status in (ACTIVE, AT_RISK) and do_not_contact == False`. -/
def riskSelect (l : Lead) : Bool :=
  (l.status = LeadStatus.active || l.status = LeadStatus.at_risk)
    && l.do_not_contact = false

/-- The selection filter of `scan_all_leads_for_opportunities` (lines 68-71):
`status in (NEW, ACTIVE, AT_RISK) and do_not_contact == False`. -/
def scanSelect (l : Lead) : Bool :=
  (l.status = LeadStatus.new || l.status = LeadStatus.active
    || l.status = LeadStatus.at_risk) && l.do_not_contact = false

/-- The lead table after a pass: selected leads are replaced by the step
result, the rest are untouched. -/
def passLeads (sel : Lead → Bool) (step : Lead → Lead × List MsgInsert)
    (ls : List Lead) : List Lead :=
  ls.map fun l => if sel l then (step l).1 else l

/-- All messages a pass inserts, in iteration order. -/
def passMsgs (sel : Lead → Bool) (step : Lead → Lead × List MsgInsert)
    (ls : List Lead) : List MsgInsert :=
  ls.foldr (fun l acc => (if sel l then (step l).2 else []) ++ acc) []

/-- The batch `run_proactive_outreach_campaign` (`engagement_engine.py`
lines 365-426). -/
def run_proactive_outreach_campaign (env : OutreachEnv) (now : ℚ) (db : DB) :
    List Lead × List MsgInsert :=
  (passLeads coldSelect (campaign_lead_step env now db.offers db.testimonials) db.leads,
   passMsgs coldSelect (campaign_lead_step env now db.offers db.testimonials) db.leads)

/-- The batch `analyze_all_active_leads` (`risk_analyzer.py` lines 352-463). -/
def analyze_all_active_leads (env : RiskEnv) (now : ℚ) (db : DB) :
    List Lead × List MsgInsert :=
  (passLeads riskSelect (analyze_lead_step env now) db.leads,
   passMsgs riskSelect (analyze_lead_step env now) db.leads)

/-- The batch `scan_all_leads_for_opportunities` (`risk_analyzer.py`
lines 59-124). -/
def scan_all_leads_for_opportunities (env : OppEnv) (now : ℚ) (db : DB) :
    List Lead × List MsgInsert :=
  (passLeads scanSelect (scan_lead_step env now db.offers) db.leads,
   passMsgs scanSelect (scan_lead_step env now db.offers) db.leads)

/-! ## Spec-side definitions used for refinement comparisons -/

/-- Modelled from the spec (section 4.2, step 4): the risk-point sum, written
as the spec lists it. -/
def specRiskPoints (sentiment_score : ℚ) (response_gap_hours : ℤ)
    (message_count : ℤ) : ℤ :=
  (if sentiment_score < -(3/10) then 2 else if sentiment_score < 0 then 1 else 0)
  + (if response_gap_hours > 72 then 2 else if response_gap_hours > 24 then 1 else 0)
  + (if message_count < 3 then 1 else 0)

/-! ## Concrete fixtures for counterexamples and witnesses -/

/-- A cold lead whose last contact was 120 hours (5 days) before `c2now` and
whose only (hence newest) message was sent by a human staff member. -/
def c2lead : Lead :=
  { id := 1, name := "Alex", initial_inquiry := some "invisalign"
    status := LeadStatus.cold, risk_level := LeadRiskLevel.low
    sentiment_score := 0, reason_for_cold := none, do_not_contact := false
    created_at := 0, last_contact_at := some 880 }

/-- The batch time used with `c2lead`. -/
def c2now : ℚ := 1000

/-- The newest (only) message of `c2lead`: from a human staff member. -/
def c2msg : Message :=
  { lead_id := 1, sender := SenderType.human, content := "Please call me back"
    created_at := 900, intent_classification := none }

/-- A database holding only `c2lead` and its human-sent message. -/
def c2db : DB :=
  { leads := [c2lead], messages := [c2msg], offers := [], testimonials := [] }

/-- An AI decision that says contact, as the strategy model is free to do. -/
def c2ai : StrategyResult :=
  { should_contact := some true, reasoning := "Lead seems promising"
    strategy := some "gentle_nudge", custom_message := none
    featured_offer := none, featured_testimonial := none
    urgency_level := "low", next_best_action := "reach out" }

/-- A campaign environment in which the model answers `c2ai` and message
generation succeeds. -/
def c2env : OutreachEnv :=
  { aiDecision := fun _ => some c2ai
    executeOk := fun _ => true
    generatedMessage := fun _ _ => "Hi Alex, just checking in." }

/-- The outreach message the campaign inserts for `c2lead` under `c2env`. -/
def c2outMsg : MsgInsert :=
  { lead_id := 1, sender := SenderType.ai
    content := "Hi Alex, just checking in."
    intent_classification := some "proactive_outreach" }

/-- A lead with `do_not_contact = true` (cold, so it would qualify for the
campaign query were it not excluded). -/
def dncLead : Lead :=
  { id := 2, name := "Sam", initial_inquiry := none
    status := LeadStatus.cold, risk_level := LeadRiskLevel.high
    sentiment_score := 0, reason_for_cold := none, do_not_contact := true
    created_at := 0, last_contact_at := none }

/-- A database with one contactable lead and one `do_not_contact` lead. -/
def c1db : DB :=
  { leads := [c2lead, dncLead], messages := [], offers := [], testimonials := [] }

/-- A risk-pass environment whose sends succeed. -/
def c1renv : RiskEnv :=
  { assessOf := fun _ => { risk_level := "high", sentiment_score := 0 }
    retentionOk := fun _ => true, retentionContent := fun _ => "retention offer"
    hasEngine := false, interventionOk := fun _ => false
    interventionContent := fun _ => "intervention" }

/-- A scan environment that falls back to the rule-based analysis. -/
def c1senv : OppEnv :=
  { aiAssess := fun _ => OppAIResult.failed
    sendOk := fun _ => true, sendContent := fun _ => "hello again" }

/-- The sentiment oracle of the C3 fixture: 1 for the newest message's text,
0 for the older one. -/
def c3senti (content : String) : ℚ := if content = "great" then 1 else 0

/-- Newest message of the C3 fixture. -/
def c3newest : Message :=
  { lead_id := 3, sender := SenderType.lead, content := "great"
    created_at := 10, intent_classification := none }

/-- Older message of the C3 fixture. -/
def c3oldest : Message :=
  { lead_id := 3, sender := SenderType.lead, content := "meh"
    created_at := 5, intent_classification := none }

/-- An `AT_RISK` high-risk lead 169 hours past its last contact at time
1000. -/
def lead169 : Lead :=
  { id := 7, name := "Pat", initial_inquiry := none
    status := LeadStatus.at_risk, risk_level := LeadRiskLevel.high
    sentiment_score := 0, reason_for_cold := none, do_not_contact := false
    created_at := 0, last_contact_at := some 831 }

/-- An `AT_RISK` high-risk lead 100 hours past its last contact at time
1000. -/
def lead100 : Lead :=
  { id := 8, name := "Kim", initial_inquiry := none
    status := LeadStatus.at_risk, risk_level := LeadRiskLevel.high
    sentiment_score := 0, reason_for_cold := none, do_not_contact := false
    created_at := 0, last_contact_at := some 900 }

/-- A risk-pass environment in which the assessment reports `high` (no
change for `lead169`/`lead100`) and every model send fails. -/
def c5envFail : RiskEnv :=
  { assessOf := fun _ => { risk_level := "high", sentiment_score := 0 }
    retentionOk := fun _ => false, retentionContent := fun _ => ""
    hasEngine := true, interventionOk := fun _ => false
    interventionContent := fun _ => "" }

/-- An AI decision declining contact with no strategy, for the C4 witness. -/
def c4ai : StrategyResult :=
  { should_contact := some false, reasoning := "model declined"
    strategy := none, custom_message := none
    featured_offer := none, featured_testimonial := none
    urgency_level := "low", next_best_action := "wait" }

/-- A lead 21 days cold at time 1000 (last contact at hour 496). -/
def c4lead : Lead :=
  { id := 9, name := "Lee", initial_inquiry := none
    status := LeadStatus.cold, risk_level := LeadRiskLevel.low
    sentiment_score := 0, reason_for_cold := none, do_not_contact := false
    created_at := 0, last_contact_at := some 496 }

/-- A campaign environment answering `c4ai` for every lead. -/
def c4env : OutreachEnv :=
  { aiDecision := fun _ => some c4ai
    executeOk := fun _ => true
    generatedMessage := fun _ _ => "We miss you." }

/-- A campaign environment in which the strategy model always fails, forcing
the rule-based fallback. -/
def c7env : OutreachEnv :=
  { aiDecision := fun _ => none
    executeOk := fun _ => true
    generatedMessage := fun _ _ => "Hello." }

/-- A sample offer for the C7 witness. -/
def c7offer : Offer :=
  { offer_title := "Spring whitening special"
    description := "20 percent off whitening"
    valid_for_service := "whitening", is_active := true }

/-! ## Helper lemmas -/

/-- Accessing an already-accessed explainer any number of further times keeps
`is_accessed` and `first_accessed_at` and adds exactly the number of calls to
`access_count`. -/
theorem mark_accessed_run (ts : List ℚ) :
    ∀ e : FinancialExplainer, e.is_accessed = true →
      (mark_accessed_at_times ts e).is_accessed = true
      ∧ (mark_accessed_at_times ts e).first_accessed_at = e.first_accessed_at
      ∧ (mark_accessed_at_times ts e).access_count = e.access_count + ts.length := by
  induction ts with
  | nil =>
    intro e h
    exact ⟨h, rfl, by simp [mark_accessed_at_times]⟩
  | cons t ts ih =>
    intro e h
    have hstep : mark_accessed_at_times (t :: ts) e
        = mark_accessed_at_times ts (mark_explainer_accessed t e) := rfl
    have h1 : (mark_explainer_accessed t e).is_accessed = true := by
      simp [mark_explainer_accessed, h]
    obtain ⟨a, b, c⟩ := ih (mark_explainer_accessed t e) h1
    refine ⟨by rw [hstep]; exact a, ?_, ?_⟩
    · rw [hstep, b]
      simp [mark_explainer_accessed, h]
    · rw [hstep, c]
      simp only [mark_explainer_accessed, h]
      simp
      ring

/-- Every message a pass inserts comes from the step of some selected lead. -/
theorem mem_passMsgs {sel : Lead → Bool} {step : Lead → Lead × List MsgInsert}
    {ls : List Lead} {m : MsgInsert} (h : m ∈ passMsgs sel step ls) :
    ∃ l ∈ ls, sel l = true ∧ m ∈ (step l).2 := by
  induction ls with
  | nil => simp [passMsgs] at h
  | cons a as ih =>
    have hcons : passMsgs sel step (a :: as)
        = (if sel a then (step a).2 else []) ++ passMsgs sel step as := rfl
    rw [hcons] at h
    rcases List.mem_append.1 h with h1 | h2
    · by_cases hs : sel a
      · rw [if_pos hs] at h1
        exact ⟨a, List.mem_cons_self a as, hs, h1⟩
      · rw [if_neg hs] at h1
        simp at h1
    · obtain ⟨l, hl, hsel, hm⟩ := ih h2
      exact ⟨l, List.mem_cons_of_mem a hl, hsel, hm⟩

/-- A pass leaves every unselected lead at its position, unchanged. -/
theorem passLeads_unselected (sel : Lead → Bool)
    (step : Lead → Lead × List MsgInsert) (ls : List Lead) (i : ℕ) (l : Lead)
    (h : ls[i]? = some l) (hsel : sel l = false) :
    (passLeads sel step ls)[i]? = some l := by
  simp [passLeads, List.getElem?_map, h, hsel]

/-- Every message the campaign step inserts is the outreach message of the
stepped lead, and it is only inserted when the final decision says contact
and the execution succeeded. -/
theorem campaign_step_msgs {env : OutreachEnv} {now : ℚ} {offers : List Offer}
    {tests : List Testimonial} {l : Lead} {m : MsgInsert}
    (h : m ∈ (campaign_lead_step env now offers tests l).2) :
    m.lead_id = l.id
    ∧ (ai_qualify_and_strategize_lead env now offers tests l).should_contact = some true
    ∧ env.executeOk l.id = true := by
  simp only [campaign_lead_step] at h
  split at h
  · simp at h
  · simp at h
  · next hq =>
    have hmem : m ∈ (execute_ai_outreach_strategy env now l
        (ai_qualify_and_strategize_lead env now offers tests l)).2.1 := by
      by_cases hc : (execute_ai_outreach_strategy env now l
          (ai_qualify_and_strategize_lead env now offers tests l)).2.2 = true
      · rw [if_pos hc] at h
        simpa using h
      · rw [if_neg hc] at h
        simpa using h
    cases hst : (ai_qualify_and_strategize_lead env now offers tests l).strategy with
    | none =>
      simp only [execute_ai_outreach_strategy, hst] at hmem
      simp at hmem
    | some s =>
      simp only [execute_ai_outreach_strategy, hst] at hmem
      by_cases hok : env.executeOk l.id
      · rw [if_pos hok] at hmem
        simp at hmem
        exact ⟨by rw [hmem], hq, hok⟩
      · rw [if_neg hok] at hmem
        simp at hmem

/-- Every message the opportunity-scan step inserts targets the stepped
lead. -/
theorem scan_step_msgs {env : OppEnv} {now : ℚ} {offers : List Offer}
    {l : Lead} {m : MsgInsert}
    (h : m ∈ (scan_lead_step env now offers l).2) : m.lead_id = l.id := by
  simp only [scan_lead_step] at h
  split at h
  · simp at h
  · split at h
    · split at h
      · by_cases hok : env.sendOk l.id
        · rw [if_pos hok] at h
          simp at h
          rw [h]
        · rw [if_neg hok] at h
          simp at h
      · split at h
        · simp at h
        · simp at h
    · simp at h

/-- Structural facts about the pre-demotion state of one risk-analysis
iteration: the lead keeps its id, its status is the input status or
`AT_RISK`, its last contact is the input one or the pass time, and every
inserted message targets it. -/
theorem analyze_pre_spec (env : RiskEnv) (now : ℚ) (l : Lead) :
    ∀ p, analyze_lead_pre env now l = some p →
      p.1.id = l.id
      ∧ (p.1.status = l.status ∨ p.1.status = LeadStatus.at_risk)
      ∧ (p.1.last_contact_at = l.last_contact_at ∨ p.1.last_contact_at = some now)
      ∧ (∀ m ∈ p.2, m.lead_id = l.id) := by
  intro p hp
  simp only [analyze_lead_pre] at hp
  split at hp
  · exact absurd hp (by simp)
  · next l1 hup =>
    have hl1 : l1.id = l.id ∧ (l1.status = l.status ∨ l1.status = LeadStatus.at_risk)
        ∧ l1.last_contact_at = l.last_contact_at := by
      split at hup
      · cases hup; exact ⟨rfl, Or.inl rfl, rfl⟩
      · split at hup
        · exact absurd hup (by simp)
        · split at hup
          · cases hup; exact ⟨rfl, Or.inr rfl, rfl⟩
          · cases hup; exact ⟨rfl, Or.inl rfl, rfl⟩
    obtain ⟨hid1, hst1, hlast1⟩ := hl1
    split at hp
    · -- high-risk branch: status bump, retention offer, intervention
      cases hp
      by_cases hs : l1.status = LeadStatus.at_risk <;>
        by_cases hr : env.retentionOk l.id <;>
        by_cases hi : env.hasEngine <;>
        by_cases hi2 : env.interventionOk l.id <;>
        refine ⟨?_, ?_, ?_, ?_⟩ <;>
        simp [hs, hr, hi, hi2, hid1, hst1] <;>
        tauto
    · split at hp
      · -- at-risk medium branch
        next hmed =>
        split at hp
        · cases hp
          exact ⟨hid1, Or.inr hmed.1, Or.inr rfl, by simp [hid1]⟩
        · cases hp
          exact ⟨hid1, hst1, Or.inl hlast1, by simp⟩
      · cases hp
        exact ⟨hid1, hst1, Or.inl hlast1, by simp⟩

/-- Every message a risk-analysis iteration inserts targets the iterated
lead. -/
theorem analyze_step_msgs {env : RiskEnv} {now : ℚ} {l : Lead} {m : MsgInsert}
    (h : m ∈ (analyze_lead_step env now l).2) : m.lead_id = l.id := by
  cases hp : analyze_lead_pre env now l with
  | none => simp only [analyze_lead_step, hp] at h; simp at h
  | some p =>
    simp only [analyze_lead_step, hp] at h
    apply (analyze_pre_spec env now l p hp).2.2.2
    by_cases hc : should_move_to_cold now p.1 = true
    · simpa [apply_cold_check, hc] using h
    · simpa [apply_cold_check, hc] using h

/-! ## Claim theorems -/

/-- C6: for every weighted sentiment score, response-gap and message count,
`determine_lead_risk_level` accumulates the spec's points (sentiment below
-0.3 adds 2 else below 0 adds 1; gap above 72h adds 2 else above 24h adds 1;
fewer than 3 messages adds 1) and maps the sum to high at 3 or more, medium
at 2, low otherwise; the three sample triples of the spec sum to 5, 2 and 0
and yield high, medium and low. -/
theorem C6_risk_level_thresholds (s : ℚ) (g m : ℤ) :
    determine_lead_risk_level s g m =
      (if specRiskPoints s g m ≥ 3 then "high"
       else if specRiskPoints s g m ≥ 2 then "medium" else "low")
    ∧ specRiskPoints (-(4/10)) 80 2 = 5
    ∧ determine_lead_risk_level (-(4/10)) 80 2 = "high"
    ∧ specRiskPoints (-(1/10)) 30 5 = 2
    ∧ determine_lead_risk_level (-(1/10)) 30 5 = "medium"
    ∧ specRiskPoints (2/10) 10 10 = 0
    ∧ determine_lead_risk_level (2/10) 10 10 = "low" := by
  refine ⟨?_, by norm_num [specRiskPoints], by norm_num [determine_lead_risk_level],
    by norm_num [specRiskPoints], by norm_num [determine_lead_risk_level],
    by norm_num [specRiskPoints], by norm_num [determine_lead_risk_level]⟩
  simp only [determine_lead_risk_level, specRiskPoints, zero_add]

/-- C8: whatever text the model returns, after stripping and lowercasing any
label outside the five-label prompt set classifies as `general_question`;
the classified intent always lies in the four routed labels, and
`complaint_concern` itself is coerced to (hence routed like)
`general_question`; the router passes the classified intent through. -/
theorem C8_intent_coercion (raw : String) :
    (pyLower (pyStrip raw) ∉ prompt_labels →
      classify_intent raw = "general_question")
    ∧ classify_intent raw ∈ valid_intents
    ∧ classify_intent "complaint_concern" = "general_question"
    ∧ route_by_intent (classify_intent raw) = classify_intent raw := by
  refine ⟨?_, ?_, by decide, rfl⟩
  · intro h
    have hv : pyLower (pyStrip raw) ∉ valid_intents := by
      intro hmem
      apply h
      simp only [valid_intents, List.mem_cons, List.mem_singleton] at hmem
      simp only [prompt_labels, List.mem_cons, List.mem_singleton]
      tauto
    simp only [classify_intent]
    rw [if_neg hv]
  · simp only [classify_intent]
    by_cases hv : pyLower (pyStrip raw) ∈ valid_intents
    · rwa [if_pos hv]
    · rw [if_neg hv]
      decide

/-- C8 witness: a concrete out-of-range label is coerced to
`general_question`. -/
theorem C8_intent_coercion_witness :
    classify_intent "banana" = "general_question" :=
  (C8_intent_coercion "banana").1 (by decide)

/-- C3: evaluating the sentiment aggregation of `assess_lead_risk` at a
two-message sample (newest sentiment 1, older sentiment 0) gives 1/3 — the
code pairs weight 1 with the newest message of its newest-first sample — while
the spec's recency-weighted average (weights 1..N oldest to newest, newest
heaviest) gives 2/3, so the claim fails on this input. -/
theorem C3_weighting_failing_input :
    sampleScores c3senti [c3newest, c3oldest] = [1, 0]
    ∧ (assess_lead_risk c3senti 100 [c3newest, c3oldest]).sentiment_score = 1/3
    ∧ weightedSentiment [1, 0] = 1/3
    ∧ specWeightedSentiment [1, 0] = 2/3
    ∧ (1/3 : ℚ) ≠ 2/3 := by
  have hs : sampleScores c3senti (List.take 10 [c3newest, c3oldest]) = [1, 0] := by
    decide
  have hw : weightedSentiment [1, 0] = 1/3 := by
    norm_num [weightedSentiment, qdot, qsum, sampleWeights, List.range_succ]
  refine ⟨by decide, ?_, hw, ?_, by norm_num⟩
  · show weightedSentiment (sampleScores c3senti (List.take 10 [c3newest, c3oldest])) = 1/3
    rw [hs, hw]
  · norm_num [specWeightedSentiment, qdot, qsum, sampleWeights, List.range_succ]

/-- C9: every created financial explainer satisfies
`estimated_insurance = total_cost * coverage` (with the effective coverage
after the falsy-default resolution), `out_of_pocket_cost = total_cost -
estimated_insurance`, nonnegative out-of-pocket when the cost is nonnegative
and the coverage is at most 1, and payment options equal to the rounded
division of the out-of-pocket amount by each plan length; the concrete
3000/0.5 case yields 1500, 1500 and monthly amounts 125, 62.50, 41.67. -/
theorem C9_financial_explainer_arithmetic (lead_id : Nat) (pname tok : String)
    (ec cov : Option ℚ) :
    (create_financial_explainer lead_id pname ec cov tok).estimated_insurance
      = (create_financial_explainer lead_id pname ec cov tok).total_cost
        * effectiveCoverage cov
    ∧ (create_financial_explainer lead_id pname ec cov tok).out_of_pocket_cost
      = (create_financial_explainer lead_id pname ec cov tok).total_cost
        - (create_financial_explainer lead_id pname ec cov tok).estimated_insurance
    ∧ (0 ≤ (create_financial_explainer lead_id pname ec cov tok).total_cost →
        effectiveCoverage cov ≤ 1 →
        0 ≤ (create_financial_explainer lead_id pname ec cov tok).out_of_pocket_cost)
    ∧ (create_financial_explainer lead_id pname ec cov tok).payment_options
      = calculate_payment_plans
          ((create_financial_explainer lead_id pname ec cov tok).out_of_pocket_cost)
          payment_plan_months
    ∧ (create_financial_explainer 1 "Invisalign" (some 3000) (some (1/2)) tok).total_cost = 3000
    ∧ (create_financial_explainer 1 "Invisalign" (some 3000) (some (1/2)) tok).estimated_insurance = 1500
    ∧ (create_financial_explainer 1 "Invisalign" (some 3000) (some (1/2)) tok).out_of_pocket_cost = 1500
    ∧ (create_financial_explainer 1 "Invisalign" (some 3000) (some (1/2)) tok).payment_options
      = [(12, 125), (24, 125/2), (36, 4167/100)] := by
  refine ⟨rfl, rfl, ?_, rfl, ?_, ?_, ?_, ?_⟩
  · intro h1 h2
    have hins : (create_financial_explainer lead_id pname ec cov tok).estimated_insurance
        = (create_financial_explainer lead_id pname ec cov tok).total_cost
          * effectiveCoverage cov := rfl
    have hoop : (create_financial_explainer lead_id pname ec cov tok).out_of_pocket_cost
        = (create_financial_explainer lead_id pname ec cov tok).total_cost
          - (create_financial_explainer lead_id pname ec cov tok).estimated_insurance := rfl
    rw [hoop, hins]
    nlinarith
  · norm_num [create_financial_explainer, orDefault]
  · norm_num [create_financial_explainer, orDefault, effectiveCoverage]
  · norm_num [create_financial_explainer, orDefault, effectiveCoverage]
  · simp only [create_financial_explainer, orDefault, effectiveCoverage,
      calculate_payment_plans, payment_plan_months, List.filterMap_cons,
      List.filterMap_nil]
    norm_num [round2, round_eq]

/-- C9 witness: the out-of-pocket nonnegativity at the concrete 3000/0.5
input. -/
theorem C9_financial_explainer_arithmetic_witness :
    0 ≤ (create_financial_explainer 1 "Invisalign" (some 3000) (some (1/2)) "tok").out_of_pocket_cost :=
  (C9_financial_explainer_arithmetic 1 "Invisalign" "tok" (some 3000) (some (1/2))).2.2.1
    (by norm_num [create_financial_explainer, orDefault])
    (by norm_num [effectiveCoverage, orDefault])

/-- C10: the first mark-accessed call flips `is_accessed` and sets
`first_accessed_at`; later calls keep both while still incrementing
`access_count` and refreshing `last_accessed_at`; after `1 + k` calls on a
fresh explainer the count has grown by `1 + k` and `first_accessed_at` still
holds the first call's time. -/
theorem C10_access_tracking (e : FinancialExplainer) (t : ℚ) (ts : List ℚ) :
    (e.is_accessed = false →
      (mark_explainer_accessed t e).is_accessed = true
      ∧ (mark_explainer_accessed t e).first_accessed_at = some t)
    ∧ (e.is_accessed = true →
      (mark_explainer_accessed t e).is_accessed = true
      ∧ (mark_explainer_accessed t e).first_accessed_at = e.first_accessed_at)
    ∧ (mark_explainer_accessed t e).access_count = e.access_count + 1
    ∧ (mark_explainer_accessed t e).last_accessed_at = some t
    ∧ (e.is_accessed = false →
      (mark_accessed_at_times (t :: ts) e).access_count = e.access_count + 1 + ts.length
      ∧ (mark_accessed_at_times (t :: ts) e).first_accessed_at = some t) := by
  refine ⟨?_, ?_, ?_, ?_, ?_⟩
  · intro h
    constructor <;> simp [mark_explainer_accessed, h]
  · intro h
    constructor <;> simp [mark_explainer_accessed, h]
  · by_cases h : e.is_accessed <;> simp [mark_explainer_accessed, h]
  · by_cases h : e.is_accessed <;> simp [mark_explainer_accessed, h]
  · intro h
    have hstep : mark_accessed_at_times (t :: ts) e
        = mark_accessed_at_times ts (mark_explainer_accessed t e) := rfl
    have h1 : (mark_explainer_accessed t e).is_accessed = true := by
      simp [mark_explainer_accessed, h]
    obtain ⟨_, b, c⟩ := mark_accessed_run ts (mark_explainer_accessed t e) h1
    constructor
    · rw [hstep, c]
      have : (mark_explainer_accessed t e).access_count = e.access_count + 1 := by
        simp [mark_explainer_accessed, h]
      rw [this]
    · rw [hstep, b]
      simp [mark_explainer_accessed, h]

/-- C4: for any successfully parsed AI decision on a lead whose days-cold is
at least the cooldown (14), the final decision has `should_contact = some
true`; when the AI declined, the reasoning is the synthesized override string
and, when the AI supplied no (falsy) strategy, the strategy is the day-tier
default, whose tiers are gentle_nudge up to 30 days, social_proof up to 45,
incentive_offer beyond. -/
theorem C4_cooldown_override (env : OutreachEnv) (now : ℚ)
    (offers : List Offer) (tests : List Testimonial) (l : Lead)
    (r : StrategyResult) (hai : env.aiDecision l.id = some r)
    (hcold : days_cold_of now l ≥ cold_lead_cooldown_days) :
    (ai_qualify_and_strategize_lead env now offers tests l).should_contact = some true
    ∧ (r.should_contact.getD false = false →
        (ai_qualify_and_strategize_lead env now offers tests l).reasoning
          = override_reasoning (days_cold_of now l)
        ∧ (r.strategy.getD "" = "" →
            (ai_qualify_and_strategize_lead env now offers tests l).strategy
              = some (override_tier (days_cold_of now l))))
    ∧ (∀ d : ℤ, d ≤ 30 → override_tier d = "gentle_nudge")
    ∧ (∀ d : ℤ, 30 < d → d ≤ 45 → override_tier d = "social_proof")
    ∧ (∀ d : ℤ, 45 < d → override_tier d = "incentive_offer") := by
  have hq : ai_qualify_and_strategize_lead env now offers tests l
      = applyCooldownOverride (days_cold_of now l) r := by
    simp [ai_qualify_and_strategize_lead, hai]
  refine ⟨?_, ?_, ?_, ?_, ?_⟩
  · rw [hq]
    by_cases hsc : r.should_contact.getD false = true
    · have hfix : applyCooldownOverride (days_cold_of now l) r = r := by
        simp [applyCooldownOverride, hsc]
      rw [hfix]
      cases hr : r.should_contact with
      | none => rw [hr] at hsc; simp at hsc
      | some b =>
        rw [hr] at hsc
        simp at hsc
        rw [hsc]
    · simp only [Bool.not_eq_true] at hsc
      by_cases hst : r.strategy.getD "" = "" <;>
        simp [applyCooldownOverride, hsc, hcold, hst]
  · intro hsc
    rw [hq]
    constructor
    · by_cases hst : r.strategy.getD "" = "" <;>
        simp [applyCooldownOverride, hsc, hcold, hst]
    · intro hst
      simp [applyCooldownOverride, hsc, hcold, hst]
  · intro d hd
    simp [override_tier, hd]
  · intro d h1 h2
    unfold override_tier
    rw [if_neg (by omega), if_pos h2]
  · intro d h1
    unfold override_tier
    rw [if_neg (by omega), if_neg (by omega)]

/-- C4 witness: a lead 21 days cold whose AI decision declines with no
strategy is forced to contact with the day-tier default. -/
theorem C4_cooldown_override_witness :
    (ai_qualify_and_strategize_lead c4env 1000 [] [] c4lead).should_contact = some true
    ∧ (ai_qualify_and_strategize_lead c4env 1000 [] [] c4lead).strategy
      = some (override_tier (days_cold_of 1000 c4lead)) := by
  have h := C4_cooldown_override c4env 1000 [] [] c4lead c4ai rfl
    (by norm_num [days_cold_of, c4lead, cold_lead_cooldown_days])
  exact ⟨h.1, (h.2.1 rfl).2 rfl⟩

/-- C7: the rule-based fallback always says contact; its strategy is
gentle_nudge for days-cold up to 30, social_proof up to 45, incentive_offer
beyond (so 20, 40 and 60 give the three tiers); it features the first
matched offer and testimonial when one exists; and the fallback is exactly
what the qualification step returns when the AI call or parse fails. -/
theorem C7_rule_based_fallback (days_cold : ℤ) (offers : List Offer)
    (tests : List Testimonial) :
    (fallback_strategy_selection days_cold offers tests).should_contact = some true
    ∧ (14 ≤ days_cold → days_cold ≤ 30 →
        (fallback_strategy_selection days_cold offers tests).strategy = some "gentle_nudge")
    ∧ (30 < days_cold → days_cold ≤ 45 →
        (fallback_strategy_selection days_cold offers tests).strategy = some "social_proof")
    ∧ (45 < days_cold →
        (fallback_strategy_selection days_cold offers tests).strategy = some "incentive_offer")
    ∧ (fallback_strategy_selection 20 offers tests).strategy = some "gentle_nudge"
    ∧ (fallback_strategy_selection 40 offers tests).strategy = some "social_proof"
    ∧ (fallback_strategy_selection 60 offers tests).strategy = some "incentive_offer"
    ∧ (offers ≠ [] → ∃ o, offers.head? = some o
        ∧ (fallback_strategy_selection days_cold offers tests).featured_offer
            = some o.offer_title)
    ∧ (tests ≠ [] → ∃ t, tests.head? = some t
        ∧ (fallback_strategy_selection days_cold offers tests).featured_testimonial
            = some t.snippet_text)
    ∧ (∀ env : OutreachEnv, ∀ now : ℚ, ∀ lead : Lead,
        env.aiDecision lead.id = none →
        ai_qualify_and_strategize_lead env now offers tests lead
          = fallback_strategy_selection (days_cold_of now lead)
              (campaignOffers offers (extract_service_keywords (lead.initial_inquiry.getD "")))
              (campaignTestimonials tests (extract_service_keywords (lead.initial_inquiry.getD "")))) := by
  refine ⟨rfl, ?_, ?_, ?_, ?_, ?_, ?_, ?_, ?_, ?_⟩
  · intro h1 h2
    simp only [fallback_strategy_selection]
    rw [if_pos (show days_cold ≤ gentle_nudge_days + 16 by
      simp only [gentle_nudge_days]; omega)]
  · intro h1 h2
    simp only [fallback_strategy_selection]
    rw [if_neg (show ¬ days_cold ≤ gentle_nudge_days + 16 by
        simp only [gentle_nudge_days]; omega),
      if_pos (show days_cold ≤ social_proof_days + 15 by
        simp only [social_proof_days]; omega)]
  · intro h1
    simp only [fallback_strategy_selection]
    rw [if_neg (show ¬ days_cold ≤ gentle_nudge_days + 16 by
        simp only [gentle_nudge_days]; omega),
      if_neg (show ¬ days_cold ≤ social_proof_days + 15 by
        simp only [social_proof_days]; omega)]
  · simp only [fallback_strategy_selection]
    norm_num [gentle_nudge_days]
  · simp only [fallback_strategy_selection]
    norm_num [gentle_nudge_days, social_proof_days]
  · simp only [fallback_strategy_selection]
    norm_num [gentle_nudge_days, social_proof_days]
  · intro hne
    cases offers with
    | nil => exact absurd rfl hne
    | cons o os => exact ⟨o, rfl, rfl⟩
  · intro hne
    cases tests with
    | nil => exact absurd rfl hne
    | cons t ts => exact ⟨t, rfl, rfl⟩
  · intro env now lead hai
    simp [ai_qualify_and_strategize_lead, hai]

/-- C7 witness: at 20 days cold with one matching offer the fallback selects
gentle_nudge and features that offer. -/
theorem C7_rule_based_fallback_witness :
    (fallback_strategy_selection 20 [c7offer] []).strategy = some "gentle_nudge"
    ∧ ∃ o, ([c7offer].head? = some o
        ∧ (fallback_strategy_selection 20 [c7offer] []).featured_offer
            = some o.offer_title) := by
  have h := C7_rule_based_fallback 20 [c7offer] []
  exact ⟨h.2.1 (by norm_num) (by norm_num), h.2.2.2.2.2.2.2.1 (by simp)⟩

/-- C2 counterexample: a cold, contactable lead only 5 days cold whose
newest (only) message was sent by a human staff member is nevertheless sent
an outreach message as soon as the AI decision says contact — the campaign
checks neither the message history nor the cooldown as a gate. -/
theorem C2_gauntlet_counterexample :
    c2lead.do_not_contact = false
    ∧ c2lead.status = LeadStatus.cold
    ∧ (List.filter (fun msg => msg.lead_id = c2lead.id) c2db.messages).head? = some c2msg
    ∧ c2msg.sender = SenderType.human
    ∧ days_cold_of c2now c2lead < cold_lead_cooldown_days
    ∧ (run_proactive_outreach_campaign c2env c2now c2db).2 = [c2outMsg]
    ∧ c2outMsg.lead_id = c2lead.id
    ∧ c2outMsg.intent_classification = some "proactive_outreach" := by
  refine ⟨rfl, rfl, by decide, rfl, ?_, by decide, rfl, rfl⟩
  norm_num [days_cold_of, c2now, c2lead, cold_lead_cooldown_days]

/-- C2 (amended): the only deterministic gauntlet check is the campaign
query itself — every outreach message of a campaign run targets a lead of
the database that was cold with `do_not_contact = false` and whose final
(AI-driven, override-adjusted) decision said contact with a successful
execution; the human-last-message and cooldown conditions are not enforced. -/
theorem C2_contact_gate (env : OutreachEnv) (now : ℚ) (db : DB) :
    ∀ m ∈ (run_proactive_outreach_campaign env now db).2,
      ∃ l ∈ db.leads, m.lead_id = l.id ∧ l.status = LeadStatus.cold
        ∧ l.do_not_contact = false
        ∧ (ai_qualify_and_strategize_lead env now db.offers db.testimonials l).should_contact = some true
        ∧ env.executeOk l.id = true := by
  intro m hm
  have hm2 : m ∈ passMsgs coldSelect
      (campaign_lead_step env now db.offers db.testimonials) db.leads := hm
  obtain ⟨l, hl, hsel, hstep⟩ := mem_passMsgs hm2
  obtain ⟨hid, hq, hok⟩ := campaign_step_msgs hstep
  have hsel2 : l.status = LeadStatus.cold ∧ l.do_not_contact = false := by
    simpa [coldSelect] using hsel
  exact ⟨l, hl, hid, hsel2.1, hsel2.2, hq, hok⟩

/-- C2 witness: the concrete campaign message of the counterexample run is
accounted for by the amended gate. -/
theorem C2_contact_gate_witness :
    ∃ l ∈ c2db.leads, c2outMsg.lead_id = l.id ∧ l.status = LeadStatus.cold
      ∧ l.do_not_contact = false
      ∧ (ai_qualify_and_strategize_lead c2env c2now c2db.offers c2db.testimonials l).should_contact = some true
      ∧ c2env.executeOk l.id = true :=
  C2_contact_gate c2env c2now c2db c2outMsg (by decide)

/-- C5: the demotion check runs at the end of every analysis iteration,
whatever happened to the risk level: the iteration ends in `COLD` exactly
when `_should_move_to_cold` holds of the state reached before the check; the
predicate is `AT_RISK` and (high risk with more than 168 hours since last
contact, or more than 336 hours); a high-risk `AT_RISK` lead 169 hours cold
(with the pass's sends failing, so its last contact is not refreshed) is
demoted, and one 100 hours cold is not, under any environment. -/
theorem C5_demotion_to_cold (env : RiskEnv) (now : ℚ) (l : Lead) :
    ((l.status = LeadStatus.active ∨ l.status = LeadStatus.at_risk) →
      ((analyze_lead_step env now l).1.status = LeadStatus.cold ↔
        ∃ p, analyze_lead_pre env now l = some p
          ∧ should_move_to_cold now p.1 = true))
    ∧ (∀ l2 : Lead, ∀ t : ℚ, l2.last_contact_at = some t →
        (should_move_to_cold now l2 = true ↔
          (l2.status = LeadStatus.at_risk
            ∧ ((l2.risk_level = LeadRiskLevel.high ∧ now - t > 168)
               ∨ now - t > 336))))
    ∧ (analyze_lead_step c5envFail 1000 lead169).1.status = LeadStatus.cold
    ∧ (∀ e : RiskEnv, (analyze_lead_step e 1000 lead100).1.status ≠ LeadStatus.cold) := by
  refine ⟨?_, ?_, ?_, ?_⟩
  · intro hstat
    constructor
    · intro hcold
      cases hp : analyze_lead_pre env now l with
      | none =>
        simp only [analyze_lead_step, hp] at hcold
        rcases hstat with h | h <;> rw [h] at hcold <;> simp at hcold
      | some p =>
        obtain ⟨-, hpstat, -, -⟩ := analyze_pre_spec env now l p hp
        simp only [analyze_lead_step, hp, apply_cold_check] at hcold
        by_cases hc : should_move_to_cold now p.1 = true
        · exact ⟨p, rfl, hc⟩
        · rw [if_neg (by simpa using hc)] at hcold
          rcases hpstat with h | h <;> rw [h] at hcold
          · rcases hstat with h2 | h2 <;> rw [h2] at hcold <;> simp at hcold
          · simp at hcold
    · rintro ⟨p, hp, hpred⟩
      simp only [analyze_lead_step, hp, apply_cold_check]
      rw [if_pos hpred]
  · intro l2 t hlast
    unfold should_move_to_cold
    by_cases hst : l2.status = LeadStatus.at_risk
    · rw [if_neg (by simp [hst])]
      simp only [hlast]
      simp [hst]
    · rw [if_pos (by simp [hst])]
      simp [hst]
  · norm_num [analyze_lead_step, analyze_lead_pre, c5envFail, lead169,
      LeadRiskLevel.value, riskLevelOfString, apply_cold_check, should_move_to_cold]
  · intro e hcold
    cases hp : analyze_lead_pre e 1000 lead100 with
    | none =>
      simp only [analyze_lead_step, hp] at hcold
      simp [lead100] at hcold
    | some p =>
      obtain ⟨-, hpstat, hplast, -⟩ := analyze_pre_spec e 1000 lead100 p hp
      simp only [analyze_lead_step, hp, apply_cold_check] at hcold
      have h900 : p.1.last_contact_at = some 900 ∨ p.1.last_contact_at = some 1000 := by
        rcases hplast with h | h
        · left; rw [h]; rfl
        · right; rw [h]
      have hpred : ¬ should_move_to_cold 1000 p.1 = true := by
        unfold should_move_to_cold
        split
        · simp
        · rcases h900 with h | h <;> simp only [h] <;>
            rw [decide_eq_true_eq] <;>
            rintro (⟨-, hb⟩ | hb) <;> norm_num at hb
      rw [if_neg (by simpa using hpred)] at hcold
      rcases hpstat with h | h <;> rw [h] at hcold
      · simp [lead100] at hcold
      · simp at hcold

/-- C5 witness: the demotion equivalences instantiated at the 169-hour
fixture. -/
theorem C5_demotion_to_cold_witness :
    ((analyze_lead_step c5envFail 1000 lead169).1.status = LeadStatus.cold ↔
      ∃ p, analyze_lead_pre c5envFail 1000 lead169 = some p
        ∧ should_move_to_cold 1000 p.1 = true)
    ∧ (should_move_to_cold 1000 lead169 = true ↔
        (lead169.status = LeadStatus.at_risk
          ∧ ((lead169.risk_level = LeadRiskLevel.high ∧ (1000 : ℚ) - 831 > 168)
             ∨ (1000 : ℚ) - 831 > 336))) :=
  ⟨(C5_demotion_to_cold c5envFail 1000 lead169).1 (Or.inr rfl),
   (C5_demotion_to_cold c5envFail 1000 lead169).2.1 lead169 831 rfl⟩

/-- C1: in all three batch passes, every inserted message belongs to a lead
of the database with `do_not_contact = false`, and every
`do_not_contact = true` lead is left at its position in the lead table,
bit-for-bit unchanged — whatever the AI oracles decide. -/
theorem C1_do_not_contact_isolation (oenv : OutreachEnv) (renv : RiskEnv)
    (senv : OppEnv) (n1 n2 n3 : ℚ) (db : DB) :
    (∀ m ∈ (run_proactive_outreach_campaign oenv n1 db).2,
        ∃ l ∈ db.leads, l.do_not_contact = false ∧ m.lead_id = l.id)
    ∧ (∀ m ∈ (analyze_all_active_leads renv n2 db).2,
        ∃ l ∈ db.leads, l.do_not_contact = false ∧ m.lead_id = l.id)
    ∧ (∀ m ∈ (scan_all_leads_for_opportunities senv n3 db).2,
        ∃ l ∈ db.leads, l.do_not_contact = false ∧ m.lead_id = l.id)
    ∧ (∀ i : ℕ, ∀ l : Lead, db.leads[i]? = some l → l.do_not_contact = true →
        (run_proactive_outreach_campaign oenv n1 db).1[i]? = some l
        ∧ (analyze_all_active_leads renv n2 db).1[i]? = some l
        ∧ (scan_all_leads_for_opportunities senv n3 db).1[i]? = some l) := by
  refine ⟨?_, ?_, ?_, ?_⟩
  · intro m hm
    have hm2 : m ∈ passMsgs coldSelect
        (campaign_lead_step oenv n1 db.offers db.testimonials) db.leads := hm
    obtain ⟨l, hl, hsel, hstep⟩ := mem_passMsgs hm2
    refine ⟨l, hl, ?_, (campaign_step_msgs hstep).1⟩
    have : l.status = LeadStatus.cold ∧ l.do_not_contact = false := by
      simpa [coldSelect] using hsel
    exact this.2
  · intro m hm
    have hm2 : m ∈ passMsgs riskSelect (analyze_lead_step renv n2) db.leads := hm
    obtain ⟨l, hl, hsel, hstep⟩ := mem_passMsgs hm2
    refine ⟨l, hl, ?_, analyze_step_msgs hstep⟩
    have : (l.status = LeadStatus.active ∨ l.status = LeadStatus.at_risk)
        ∧ l.do_not_contact = false := by
      simpa [riskSelect] using hsel
    exact this.2
  · intro m hm
    have hm2 : m ∈ passMsgs scanSelect (scan_lead_step senv n3 db.offers) db.leads := hm
    obtain ⟨l, hl, hsel, hstep⟩ := mem_passMsgs hm2
    refine ⟨l, hl, ?_, scan_step_msgs hstep⟩
    have : ((l.status = LeadStatus.new ∨ l.status = LeadStatus.active)
        ∨ l.status = LeadStatus.at_risk) ∧ l.do_not_contact = false := by
      simpa [scanSelect] using hsel
    exact this.2
  · intro i l hi hdnc
    refine ⟨?_, ?_, ?_⟩
    · exact passLeads_unselected _ _ _ _ _ hi (by simp [coldSelect, hdnc])
    · exact passLeads_unselected _ _ _ _ _ hi (by simp [riskSelect, hdnc])
    · exact passLeads_unselected _ _ _ _ _ hi (by simp [scanSelect, hdnc])

/-- C1 witness: in a database holding a contactable cold lead and a
`do_not_contact` lead, all three passes leave the `do_not_contact` lead
untouched at its position. -/
theorem C1_do_not_contact_isolation_witness :
    (run_proactive_outreach_campaign c2env 1000 c1db).1[1]? = some dncLead
    ∧ (analyze_all_active_leads c1renv 1000 c1db).1[1]? = some dncLead
    ∧ (scan_all_leads_for_opportunities c1senv 1000 c1db).1[1]? = some dncLead :=
  (C1_do_not_contact_isolation c2env c1renv c1senv 1000 1000 1000 c1db).2.2.2
    1 dncLead rfl rfl

/-- C10 witness: a freshly created explainer accessed at times 1, 2 and 3 has
been accessed three times and keeps time 1 as its first access. -/
theorem C10_access_tracking_witness :
    (mark_accessed_at_times ((1 : ℚ) :: [2, 3])
        (create_financial_explainer 1 "Crown" (some 1200) (some (1/2)) "tk")).access_count
      = (create_financial_explainer 1 "Crown" (some 1200) (some (1/2)) "tk").access_count
        + 1 + ([(2 : ℚ), 3]).length
    ∧ (mark_accessed_at_times ((1 : ℚ) :: [2, 3])
        (create_financial_explainer 1 "Crown" (some 1200) (some (1/2)) "tk")).first_accessed_at
      = some 1 :=
  (C10_access_tracking (create_financial_explainer 1 "Crown" (some 1200) (some (1/2)) "tk")
    1 [2, 3]).2.2.2.2 rfl

end BrightSmile
